import Mathlib

/-!
Verification of the timed-assessment execution and integrity engine of the
exam-portal repository. The definitions below are a shallow embedding of the
relevant source functions in `src/pages/CodingRound.tsx`, `src/pages/MCQRound.tsx`
and the layout-level proctoring monitor; machine timestamps are modelled as
integers (epoch milliseconds), the Firestore document store as keyed maps, and
the JavaScript string `trim()` as `String.trim`.
-/

namespace ExamPortal

/-- Status union of a `RunResult` in `CodingRound.tsx`
(`"Accepted" | "Compilation Error" | "Runtime Error" | "Processing" | "Failed" | "OK"`). -/
inductive RunStatus where
  | accepted
  | compilationError
  | runtimeError
  | processing
  | failed
  | ok
deriving DecidableEq, Repr

/-- Result of one execution of candidate code (`RunResult` in `CodingRound.tsx`);
the wall-clock `timeSec` field is not modelled. -/
structure RunResult where
  stdout : String
  stderr : String
  status : RunStatus
deriving DecidableEq, Repr

/-- Test case of a coding question (`testCases` entries in the `Question` type). -/
structure TestCase where
  id : Option Nat
  input : String
  expectedOutput : String
deriving DecidableEq, Repr

/-- Abstract runner: `runLocal` with the language fixed, as invoked in the
run and submit loops (`runLocal(code, langId, tc.input)`); first argument is the
candidate source, second the stdin text. -/
abbrev Runner := String → String → RunResult

/-- Per-case entry pushed into `collected` by the loop bodies of `handleRun`
(lines 392-406) and `submit` (lines 459-473) of `CodingRound.tsx`:
`out = (r.stdout || "").trim(); expected = (tc.expectedOutput || "").trim();`
`passed = r.status === "OK" && out === expected`; the stored `stderr` is
`r.stderr || undefined` (empty string becomes absent). -/
structure CaseResult where
  id : Option Nat
  input : String
  expected : String
  output : String
  passed : Bool
  stderr : Option String
deriving DecidableEq, Repr

/-- Whitespace predicate of the JavaScript `trim()` (restricted to the ASCII
whitespace characters that occur in this development). -/
def isJsWhitespace (c : Char) : Bool :=
  c == ' ' || c == '\t' || c == '\n' || c == '\r'

/-- Model of the JavaScript `String.prototype.trim`: removes leading and
trailing whitespace of the full string, nothing per-line and nothing internal. -/
def jsTrim (s : String) : String :=
  ⟨((s.data.dropWhile isJsWhitespace).reverse.dropWhile isJsWhitespace).reverse⟩

/-- Body of one iteration of the run/submit loops of `CodingRound.tsx`. -/
def evalCase (run : Runner) (code : String) (tc : TestCase) : CaseResult :=
  let r := run code tc.input
  let out := jsTrim r.stdout
  let expected := jsTrim tc.expectedOutput
  let passed := r.status == RunStatus.ok && out == expected
  { id := tc.id
    input := tc.input
    expected := expected
    output := out
    passed := passed
    stderr := if r.stderr == "" then none else some r.stderr }

/-- Accumulator of the imperative submit loop of `CodingRound.tsx`
(`collected`, `passedCount`, and whether `resultText` was set to `"Failed"`). -/
structure SubmitAcc where
  collected : List CaseResult
  passedCount : Nat
  failed : Bool
deriving DecidableEq, Repr

/-- Loop of `submit` (`CodingRound.tsx` lines 459-478): evaluates the test
cases sequentially in order, appends one `CaseResult` per case, increments
`passedCount` on a pass, and latches `resultText = "Failed"` whenever
`r.status !== "OK" || out !== expected`. -/
def submitLoop (run : Runner) (code : String) : List TestCase → SubmitAcc → SubmitAcc
  | [], acc => acc
  | tc :: rest, acc =>
      let c := evalCase run code tc
      submitLoop run code rest
        { collected := acc.collected ++ [c]
          passedCount := if c.passed then acc.passedCount + 1 else acc.passedCount
          failed := acc.failed || !c.passed }

/-- Percentage computation of `submit` (`CodingRound.tsx` line 480):
`totalCount > 0 ? Math.round((passedCount / totalCount) * 100) : 0`, with
`Math.round` rendered as exact rational rounding half-up,
`Math.round(100 p / t) = (200 p + t) / (2 t)` in natural division. -/
def submitPercentage (passedCount totalCount : Nat) : Nat :=
  if 0 < totalCount then (200 * passedCount + totalCount) / (2 * totalCount) else 0

/-- Persisted per-question coding submission document
(`responses/{uid}/round2/{questionId}`, `CodingRound.tsx` lines 482-493);
the wall-clock `submittedAt` field is not modelled. -/
structure SubmissionRecord where
  code : String
  language : String
  result : String
  percentage : Nat
  passed : Nat
  total : Nat
  problemId : String
  examViolations : Nat
  durationSec : Nat
deriving DecidableEq, Repr

/-- Coding question as used by the engine: identity, ordered test cases and the
optional assignment window end time (epoch milliseconds). -/
structure Question where
  id : String
  testCases : List TestCase
  endAt : Option Int
deriving DecidableEq, Repr

/-- Record built and written by `submit` (`CodingRound.tsx` lines 444-493) for
one question from the current code buffer, violations and elapsed seconds. -/
def submitRecord (run : Runner) (langId : String) (q : Question) (code : String)
    (violations timerSec : Nat) : SubmissionRecord :=
  let acc := submitLoop run code q.testCases ⟨[], 0, false⟩
  { code := code
    language := langId
    result := if acc.failed then "Failed" else "Passed"
    percentage := submitPercentage acc.passedCount q.testCases.length
    passed := acc.passedCount
    total := q.testCases.length
    problemId := q.id
    examViolations := violations
    durationSec := timerSec }

/-- Outcome of handing candidate source to the underlying interpreter: either it
runs to completion with output buffers, or it raises (syntax error at
`new Function`/`compile`, or an uncaught exception during execution). -/
inductive ExecOutcome where
  | success (stdout stderr : String)
  | raises (message : String)
deriving DecidableEq, Repr

/-- Abstract interpreter invocation (source, stdin text). -/
abbrev Interp := String → String → ExecOutcome

/-- JavaScript branch of `runLocal` (`CodingRound.tsx` lines 290-319): the
`try` block returns the buffers with status `"OK"`; the `catch` block returns
status `"Runtime Error"` with the exception message in stderr. -/
def runLocalJs (interp : Interp) (source stdinText : String) : RunResult :=
  match interp source stdinText with
  | .success out err => { stdout := out, stderr := err, status := .ok }
  | .raises msg =>
      { stdout := "", stderr := "Runtime Error: " ++ msg, status := .runtimeError }

/-- Python branch of `runLocal` (`CodingRound.tsx` lines 321-369): before the
interpreter is ready it returns status `"Failed"` with a not-ready message; a
completed run returns `"Runtime Error"` when the stderr buffer is nonempty and
`"OK"` otherwise; an exception escaping `runPythonAsync` is caught and returned
as status `"Runtime Error"` with the message in stderr. -/
def runLocalPython (ready : Bool) (interp : Interp) (source stdinText : String) :
    RunResult :=
  if ready then
    match interp source stdinText with
    | .success out err =>
        { stdout := out, stderr := err
          status := if err == "" then .ok else .runtimeError }
    | .raises msg =>
        { stdout := "", stderr := "Runtime Error: " ++ msg, status := .runtimeError }
  else
    { stdout := "", stderr := "Python runtime not ready", status := .failed }

/-- State of the coding-round session (`CodingRoundPage` component state):
loaded questions, current index, per-question code buffers (language fixed),
the ids guarded by `submittedQuestions`, the persisted `round2` store, the
countdown, the one-time low-time warning flag, completion, violation and
elapsed-time counters, the warning banner, and whether the exam was started.
The field `forcedSubmitCount` is a ghost counter incremented exactly when the
countdown callback invokes `submit()`; it tracks no source variable and does
not influence any transition. -/
structure CodingSession where
  questions : List Question
  idx : Nat
  codeMap : String → String
  submittedQuestions : List String
  records : String → Option SubmissionRecord
  remainingSec : Option Int
  warnShown : Bool
  roundCompleted : Bool
  violations : Nat
  timerSec : Nat
  warningMsg : Option String
  started : Bool
  forcedSubmitCount : Nat

/-- Function `submit` of `CodingRound.tsx` (lines 440-508) on the session
state: a no-op when no question is loaded or the current question is already in
`submittedQuestions`; otherwise it evaluates all test cases of the current
question, writes the keyed submission document and marks the question
submitted. The authenticated uid is assumed present. -/
def submit (run : Runner) (langId : String) (s : CodingSession) : CodingSession :=
  match s.questions[s.idx]? with
  | none => s
  | some q =>
      if s.submittedQuestions.contains q.id then s
      else
        let codeBuf := s.codeMap q.id
        let rcd := submitRecord run langId q codeBuf s.violations s.timerSec
        { s with
          records := fun k => if k = q.id then some rcd else s.records k
          submittedQuestions := s.submittedQuestions ++ [q.id] }

/-- Derivation of the initial countdown in `loadQuestions` (`CodingRound.tsx`
lines 196-205): collect the finite end times of the loaded questions; when
nonempty, `remainingSec = Math.max(0, Math.floor((earliest - now) / 1000))`
with `earliest = Math.min(...ends)`; otherwise the countdown is inactive. -/
def initialRemaining (qs : List Question) (now : Int) : Option Int :=
  match qs.filterMap Question.endAt with
  | [] => none
  | e :: es => some (max 0 (Int.fdiv (es.foldl min e - now) 1000))

/-- Callback of the countdown interval (`CodingRound.tsx` lines 511-537),
taken as one atomic step: inactive when `roundCompleted` or no countdown;
otherwise `next = s - 1`; at `next === 60` the one-time warning flag latches;
when `next <= 0` the interval stops, the current question is auto-submitted via
`submit()` if not yet submitted, and the countdown pins to `0`; otherwise the
countdown becomes `next`. -/
def tick (run : Runner) (langId : String) (s : CodingSession) : CodingSession :=
  if s.roundCompleted then s
  else
    match s.remainingSec with
    | none => s
    | some r =>
        let next : Int := r - 1
        let s1 := if next == 60 && !s.warnShown then { s with warnShown := true } else s
        if next ≤ 0 then
          let s2 := { s1 with remainingSec := some 0 }
          match s2.questions[s2.idx]? with
          | none => s2
          | some q =>
              if s2.submittedQuestions.contains q.id then s2
              else
                { submit run langId s2 with
                  forcedSubmitCount := s2.forcedSubmitCount + 1 }
        else { s1 with remainingSec := some next }

/-- Function `bumpViolation` of the coding-round anti-cheat effect
(`CodingRound.tsx` lines 580-587): increments the violation counter and shows
the warning banner; no rejection and no cap. -/
def bumpViolation (reason : String) (s : CodingSession) : CodingSession :=
  { s with violations := s.violations + 1, warningMsg := some reason }

/-- Listener `onVisibility` of the coding-round anti-cheat effect
(`CodingRound.tsx` lines 589-591): active only while the exam is started;
every event with `document.hidden` bumps a violation. The event timestamp is
ignored: this handler has no debounce window. -/
def codingOnVisibility (now : Int) (hidden : Bool) (s : CodingSession) :
    CodingSession :=
  if s.started && hidden then bumpViolation "Tab switch detected" s else s

/-- MCQ question as consumed by `MCQRound.tsx`: identity, prompt title and the
stored correct answer string. -/
structure McqQuestion where
  id : String
  title : String
  answer : String
deriving DecidableEq, Repr

/-- Selected answer used by `handleSubmit` (`MCQRound.tsx` line 206):
`answers[q.id] || ""`, so a question with no stored selection is compared as the
empty string. -/
def selectedAnswer (answers : List (String × String)) (q : McqQuestion) : String :=
  (answers.lookup q.id).getD ""

/-- Comparison of `handleSubmit` (`MCQRound.tsx` line 207):
`selectedAnswer === q.answer`, case-sensitive string equality. -/
def isCorrect (answers : List (String × String)) (q : McqQuestion) : Bool :=
  selectedAnswer answers q == q.answer

/-- Loop of `handleSubmit` (`MCQRound.tsx` lines 205-218) accumulating
`(correctCount, wrongCount)` over every loaded question in order. -/
def scoreLoop (answers : List (String × String)) :
    List McqQuestion → Nat × Nat → Nat × Nat
  | [], acc => acc
  | q :: rest, (c, w) =>
      if isCorrect answers q then scoreLoop answers rest (c + 1, w)
      else scoreLoop answers rest (c, w + 1)

/-- Persisted `round1` submission document (`MCQRound.tsx` lines 223-238);
`totalScore = correctCount` per line 220. The wall-clock `submittedAt` field is
not modelled. -/
structure Round1Record where
  score : Nat
  correct : Nat
  wrong : Nat
  examDuration : Nat
  violations : Nat
deriving DecidableEq, Repr

/-- Record written by `handleSubmit` of `MCQRound.tsx` for a whole MCQ set. -/
def handleSubmitRecord (questions : List McqQuestion)
    (answers : List (String × String)) (timerSec violations : Nat) : Round1Record :=
  let counts := scoreLoop answers questions (0, 0)
  { score := counts.1
    correct := counts.1
    wrong := counts.2
    examDuration := timerSec
    violations := violations }

/-- Fields of the merge write performed by `handleReject`
(`MCQRound.tsx` lines 264-273); the wall-clock `rejectedAt` is not modelled. -/
structure McqRejectionRecord where
  round1Submitted : Bool
  round1Rejected : Bool
  violations : Nat
deriving DecidableEq, Repr

/-- State of the MCQ session (`MCQRoundPage` component state) together with the
values captured by the anti-cheat effect closure. The effect of
`MCQRound.tsx` lines 97-161 re-subscribes its listeners only when one of its
dependencies `[started, submitted, warningGiven, soundEnabled]` changes, so the
handlers read `warningGiven` and `violations` from the render at which the
effect last ran: `snapWarningGiven` and `snapViolations` model those captured
values, `listenersActive` whether listeners are currently attached
(`started && !submitted` at the last render). `violations` itself is exact
because `setViolations(v => v + 1)` is a functional update.
`fullscreenRequests` is a ghost counter of `reEnterFullscreen()` attempts. -/
structure McqSession where
  started : Bool
  submitted : Bool
  warningGiven : Bool
  violations : Nat
  warningMsg : Option String
  listenersActive : Bool
  snapWarningGiven : Bool
  snapViolations : Nat
  fullscreenRequests : Nat
  record : Option McqRejectionRecord

/-- First-violation warning text of `MCQRound.tsx` line 104. -/
def mcqWarningText : String :=
  "Warning: Do not exit fullscreen or switch tabs. Next violation will reject your exam."

/-- Rejection banner text of `MCQRound.tsx` line 112. -/
def mcqRejectText : String := "Exam rejected due to repeated violations."

/-- Function `handleReject` of `MCQRound.tsx` (lines 260-277): marks the
session submitted and merge-writes the rejection record. The `violations` value
it writes is the one captured by the closure of the render at which the
listeners were subscribed (`snapViolations`), not the live counter. -/
def mcqHandleReject (s : McqSession) : McqSession :=
  { s with
    submitted := true
    record := some { round1Submitted := true, round1Rejected := true
                     violations := s.snapViolations } }

/-- Function `handleViolation` of `MCQRound.tsx` (lines 98-115) as run by the
subscribed listeners: a no-op when no listeners are attached; otherwise it
increments the live violation counter, and branches on the captured
`warningGiven`: first violation shows the warning, latches `warningGiven` and
attempts to re-enter fullscreen; a later violation shows the rejection banner
and calls `handleReject`. -/
def mcqHandleViolation (s : McqSession) : McqSession :=
  if s.listenersActive then
    let s := { s with violations := s.violations + 1 }
    if s.snapWarningGiven then
      mcqHandleReject { s with warningMsg := some mcqRejectText }
    else
      { s with
        warningMsg := some mcqWarningText
        warningGiven := true
        fullscreenRequests := s.fullscreenRequests + 1 }
  else s

/-- Commit following an event handler: React re-renders and the anti-cheat
effect re-subscribes with fresh closure values when `started && !submitted`,
and detaches the listeners otherwise. -/
def mcqRerender (s : McqSession) : McqSession :=
  if s.started && !s.submitted then
    { s with
      listenersActive := true
      snapWarningGiven := s.warningGiven
      snapViolations := s.violations }
  else { s with listenersActive := false }

/-- One integrity-violation signal (tab hidden, fullscreen exit or Escape key)
followed by the re-render it causes. -/
def mcqViolationEvent (s : McqSession) : McqSession :=
  mcqRerender (mcqHandleViolation s)

/-- Listener `handleVisibility` of `MCQRound.tsx` (lines 117-119) on a
timestamped visibilitychange event: `if (document.hidden) handleViolation()`.
The timestamp is ignored: this handler has no debounce window, so duplicate
events each count. -/
def mcqVisibilityAt (now : Int) (hidden : Bool) (s : McqSession) : McqSession :=
  if hidden then mcqViolationEvent s else s

/-- Session right after `handleStart` on a fresh load (`MCQRound.tsx`
lines 186-189): started, nothing submitted, no warning, zero violations, the
listeners freshly attached. -/
def startedMcqSession : McqSession :=
  { started := true
    submitted := false
    warningGiven := false
    violations := 0
    warningMsg := none
    listenersActive := true
    snapWarningGiven := false
    snapViolations := 0
    fullscreenRequests := 1
    record := none }

/-- State of the layout-level proctoring monitor (`Layout` component,
`violationCount` and `lastVisibilityChangeRef`); `lockoutSet` models the
`exam_lockout_until` write and `signedOut` the forced sign-out at five
violations. -/
structure LayoutMonitor where
  violationCount : Nat
  lastVisibilityChange : Int
  lockoutSet : Bool
  signedOut : Bool
deriving DecidableEq, Repr

/-- Function `handleViolation` of the layout monitor (part of the proctoring
effect): increments the count and, at five or more, sets the lockout and signs
the user out. -/
def layoutHandleViolation (m : LayoutMonitor) : LayoutMonitor :=
  let m := { m with violationCount := m.violationCount + 1 }
  if 5 ≤ m.violationCount then { m with lockoutSet := true, signedOut := true }
  else m

/-- Listener `onVisibilityChange` of the layout monitor (lines 148-156 of the
layout source): an event within 500 ms of the previously accepted one is
dropped entirely; otherwise the timestamp is recorded and a hidden document
counts one violation. -/
def onVisibilityChange (now : Int) (hidden : Bool) (m : LayoutMonitor) :
    LayoutMonitor :=
  if now - m.lastVisibilityChange < 500 then m
  else
    let m := { m with lastVisibilityChange := now }
    if hidden then layoutHandleViolation m else m

/-- Runner returning a fixed stdout with a clean status, for concrete instances. -/
def constRunner (out : String) : Runner :=
  fun _ _ => { stdout := out, stderr := "", status := .ok }

/-- Interpreter that raises on stdin `"2"` and succeeds elsewhere. -/
def flakyInterp : Interp := fun _ stdinText =>
  if stdinText == "2" then .raises "boom" else .success "ok" ""

/-- Runner obtained from `flakyInterp` through the JavaScript adapter branch. -/
def flakyRunner : Runner := fun source stdinText => runLocalJs flakyInterp source stdinText

/-- Runner of Scenario A: correct doubling on inputs 1 and 3, wrong on input 2. -/
def scenarioRunner : Runner := fun _ stdinText =>
  { stdout := if stdinText == "1" then "2" else if stdinText == "2" then "5" else "6"
    stderr := ""
    status := .ok }

/-- Three-test-case question of Scenario A. -/
def scenarioQuestion : Question :=
  { id := "double-q"
    testCases := [{ id := some 1, input := "1", expectedOutput := "2" },
                  { id := some 2, input := "2", expectedOutput := "4" },
                  { id := some 3, input := "3", expectedOutput := "6" }]
    endAt := none }

/-- Concrete coding question, already submitted in `twoQuestionSession`. -/
def questionA : Question :=
  { id := "q1"
    testCases := [{ id := some 1, input := "1", expectedOutput := "2" }]
    endAt := some 1000000 }

/-- Concrete coding question, still unsubmitted in `twoQuestionSession`. -/
def questionB : Question :=
  { id := "q2"
    testCases := [{ id := some 1, input := "3", expectedOutput := "6" }]
    endAt := some 1000000 }

/-- Coding session with two questions of which exactly one (the non-current
`q2`) is unsubmitted, one second before expiry. -/
def twoQuestionSession : CodingSession :=
  { questions := [questionA, questionB]
    idx := 0
    codeMap := fun _ => "print(int(input()) * 2)"
    submittedQuestions := ["q1"]
    records := fun _ => none
    remainingSec := some 1
    warnShown := true
    roundCompleted := false
    violations := 0
    timerSec := 30
    warningMsg := none
    started := true
    forcedSubmitCount := 0 }

/-- Coding session with a single unsubmitted current question and three seconds
left on the countdown. -/
def pendingSession : CodingSession :=
  { questions := [questionA]
    idx := 0
    codeMap := fun _ => "print(2)"
    submittedQuestions := []
    records := fun _ => none
    remainingSec := some 3
    warnShown := true
    roundCompleted := false
    violations := 0
    timerSec := 30
    warningMsg := none
    started := true
    forcedSubmitCount := 0 }

/-- Concrete MCQ question answered in the scoring witness. -/
def mcqFixtureA : McqQuestion := { id := "m1", title := "first", answer := "A" }

/-- Concrete MCQ question left unanswered in the scoring witness. -/
def mcqFixtureB : McqQuestion := { id := "m2", title := "second", answer := "B" }

/-- Concrete layout-monitor state with an event last accepted at time 1000. -/
def layoutFixture : LayoutMonitor :=
  { violationCount := 0
    lastVisibilityChange := 1000
    lockoutSet := false
    signedOut := false }

/-! Helper lemmas characterising the accumulator of the submit loop. -/

theorem submitLoop_collected (run : Runner) (code : String) (tcs : List TestCase)
    (acc : SubmitAcc) :
    (submitLoop run code tcs acc).collected
      = acc.collected ++ tcs.map (evalCase run code) := by
  induction tcs generalizing acc with
  | nil => simp [submitLoop]
  | cons tc rest ih => simp [submitLoop, ih]

theorem submitLoop_passedCount (run : Runner) (code : String) (tcs : List TestCase)
    (acc : SubmitAcc) :
    (submitLoop run code tcs acc).passedCount
      = acc.passedCount + tcs.countP (fun tc => (evalCase run code tc).passed) := by
  induction tcs generalizing acc with
  | nil => simp [submitLoop]
  | cons tc rest ih =>
      simp only [submitLoop, ih, List.countP_cons]
      by_cases h : (evalCase run code tc).passed <;> simp [h] <;> omega

theorem submitLoop_failed (run : Runner) (code : String) (tcs : List TestCase)
    (acc : SubmitAcc) :
    (submitLoop run code tcs acc).failed
      = (acc.failed || !tcs.all (fun tc => (evalCase run code tc).passed)) := by
  induction tcs generalizing acc with
  | nil => simp [submitLoop]
  | cons tc rest ih =>
      simp only [submitLoop, ih, List.all_cons]
      by_cases h : (evalCase run code tc).passed <;> simp [h]

/-- C5: for every runner, candidate source and list of test cases, the submit
loop produces exactly one per-case verdict per test case, in the original input
order (the verdict list is the pointwise image of the test-case list, preserving
length and the input of every position); and concretely, with a runner whose
second case raises a runtime error, only that case is marked failed (with the
exception text) while the remaining case is still evaluated — no short-circuit. -/
theorem evaluation_verdicts_in_order_no_short_circuit :
    (∀ (run : Runner) (code : String) (tcs : List TestCase),
        (submitLoop run code tcs ⟨[], 0, false⟩).collected
            = tcs.map (evalCase run code)
        ∧ (submitLoop run code tcs ⟨[], 0, false⟩).collected.length = tcs.length
        ∧ (submitLoop run code tcs ⟨[], 0, false⟩).collected.map CaseResult.input
            = tcs.map TestCase.input)
    ∧ (submitLoop flakyRunner "src"
          [{ id := some 1, input := "1", expectedOutput := "ok" },
           { id := some 2, input := "2", expectedOutput := "ok" },
           { id := some 3, input := "3", expectedOutput := "ok" }]
          ⟨[], 0, false⟩).collected.map (fun c => (c.passed, c.stderr))
        = [(true, none), (false, some "Runtime Error: boom"), (true, none)] := by
  constructor
  · intro run code tcs
    have h := submitLoop_collected run code tcs ⟨[], 0, false⟩
    refine ⟨by simpa using h, ?_, ?_⟩
    · simp [h]
    · simp [h, evalCase]
  · decide

/-- C4: a test case passes exactly when the execution status is OK and the
actual output equals the expected output after trimming leading and trailing
whitespace of the full strings; the comparison is case-sensitive with no
per-line trimming. Concretely: output `"5\n"` passes against expected `"5"`,
output `"5 "` passes against `"5"`, output `"5\t"` differs from expected
`"5 "` as a raw string yet passes because both trim to `"5"`, output `"a"`
fails against `"A"`, and output `"1 \n2"` fails against `"1\n2"` because the
internal trailing space is not trimmed. -/
theorem verdict_pass_iff_trimmed_match :
    (∀ (run : Runner) (code : String) (tc : TestCase),
        (evalCase run code tc).passed
          = ((run code tc.input).status == RunStatus.ok
              && jsTrim (run code tc.input).stdout == jsTrim tc.expectedOutput))
    ∧ (evalCase (constRunner "5\n") "" { id := none, input := "", expectedOutput := "5" }).passed = true
    ∧ (evalCase (constRunner "5 ") "" { id := none, input := "", expectedOutput := "5" }).passed = true
    ∧ (("5\t" == "5 ") = false
        ∧ (evalCase (constRunner "5\t") "" { id := none, input := "", expectedOutput := "5 " }).passed = true)
    ∧ (evalCase (constRunner "a") "" { id := none, input := "", expectedOutput := "A" }).passed = false
    ∧ (evalCase (constRunner "1 \n2") "" { id := none, input := "", expectedOutput := "1\n2" }).passed = false := by
  refine ⟨fun run code tc => rfl, by decide, by decide, ⟨by decide, by decide⟩, by decide, by decide⟩

/-- C7: submitting a question that is already in `submittedQuestions` is a
no-op: the guard returns before any evaluation or write, leaving the whole
session (including the persisted store) unchanged. -/
theorem submit_idempotent_guard (run : Runner) (lang : String) (s : CodingSession)
    (q : Question) (hq : s.questions[s.idx]? = some q)
    (hsub : s.submittedQuestions.contains q.id = true) :
    submit run lang s = s := by
  simp only [submit, hq, hsub, if_true]

/-- Witness for C7 at a concrete session whose current question is already
submitted. -/
theorem submit_idempotent_guard_witness :
    submit (constRunner "2") "python" twoQuestionSession = twoQuestionSession :=
  submit_idempotent_guard (constRunner "2") "python" twoQuestionSession questionA
    (by decide) (by decide)

/-- C9: an interpreter invocation that raises (syntax error or uncaught runtime
exception) is caught at the `runLocal` boundary of either language branch and
returned as a result with status Runtime Error and the exception message in
stderr. `runLocalJs` and `runLocalPython` are total functions of the outcome,
so no exception propagates to the caller. -/
theorem runLocal_catches_execution_errors (interp : Interp)
    (source stdinText msg : String)
    (h : interp source stdinText = .raises msg) :
    runLocalJs interp source stdinText
      = { stdout := "", stderr := "Runtime Error: " ++ msg, status := .runtimeError }
    ∧ runLocalPython true interp source stdinText
      = { stdout := "", stderr := "Runtime Error: " ++ msg, status := .runtimeError } := by
  constructor <;> simp [runLocalJs, runLocalPython, h]

/-- Witness for C9 with an interpreter that raises on every input. -/
theorem runLocal_catches_execution_errors_witness :
    runLocalJs (fun _ _ => ExecOutcome.raises "boom") "x" ""
      = { stdout := "", stderr := "Runtime Error: boom", status := .runtimeError }
    ∧ runLocalPython true (fun _ _ => ExecOutcome.raises "boom") "x" ""
      = { stdout := "", stderr := "Runtime Error: boom", status := .runtimeError } :=
  runLocal_catches_execution_errors (fun _ _ => ExecOutcome.raises "boom") "x" "" "boom" rfl

/-- Helper lemma: the scoring loop of `handleSubmit` adds, to any starting
accumulator, the number of correctly answered questions and the number of the
rest. -/
theorem scoreLoop_counts (answers : List (String × String)) (qs : List McqQuestion)
    (c w : Nat) :
    scoreLoop answers qs (c, w)
      = (c + qs.countP (fun q => isCorrect answers q),
         w + qs.countP (fun q => !isCorrect answers q)) := by
  induction qs generalizing c w with
  | nil => simp [scoreLoop]
  | cons q rest ih =>
      cases h : isCorrect answers q with
      | true => simp [scoreLoop, h, ih, List.countP_cons, Prod.mk.injEq] <;> omega
      | false => simp [scoreLoop, h, ih, List.countP_cons, Prod.mk.injEq] <;> omega

/-- C10: submitting an MCQ set scores every loaded question: a question with no
stored selection is compared as the empty string against its stored correct
answer, so correct and wrong counts always sum to the number of loaded
questions, the score equals the correct count, the wrong count counts exactly
the questions whose comparison fails, and an unanswered question whose correct
answer is nonempty fails the comparison — unanswered questions are scored
wrong, never skipped. -/
theorem mcq_scoring_counts_unanswered_as_wrong
    (questions : List McqQuestion) (answers : List (String × String)) (t v : Nat) :
    (handleSubmitRecord questions answers t v).correct
        + (handleSubmitRecord questions answers t v).wrong = questions.length
    ∧ (handleSubmitRecord questions answers t v).score
        = (handleSubmitRecord questions answers t v).correct
    ∧ (handleSubmitRecord questions answers t v).wrong
        = questions.countP (fun q => !isCorrect answers q)
    ∧ (∀ q ∈ questions, answers.lookup q.id = none →
        selectedAnswer answers q = ""
        ∧ ((q.answer == "") = false → isCorrect answers q = false)) := by
  have hloop := scoreLoop_counts answers questions 0 0
  have hc : (handleSubmitRecord questions answers t v).correct
      = (scoreLoop answers questions (0, 0)).1 := rfl
  have hw : (handleSubmitRecord questions answers t v).wrong
      = (scoreLoop answers questions (0, 0)).2 := rfl
  refine ⟨?_, rfl, ?_, ?_⟩
  · rw [hc, hw, hloop]
    simpa using (List.length_eq_countP_add_countP
      (fun q => isCorrect answers q) questions).symm
  · rw [hw, hloop]
    simp
  · intro q _ hnone
    have hsel : selectedAnswer answers q = "" := by
      simp [selectedAnswer, hnone]
    refine ⟨hsel, fun hne => ?_⟩
    have hiso : isCorrect answers q = (("" : String) == q.answer) := by
      simp only [isCorrect, hsel]
    rw [hiso]
    cases hq : (("" : String) == q.answer) with
    | false => rfl
    | true =>
        have hemp : ("" : String) = q.answer := eq_of_beq hq
        rw [← hemp] at hne
        simp at hne

/-- Witness for C10 on a two-question set with the second question unanswered. -/
theorem mcq_scoring_counts_unanswered_as_wrong_witness :
    (handleSubmitRecord [mcqFixtureA, mcqFixtureB] [("m1", "A")] 10 0).correct
        + (handleSubmitRecord [mcqFixtureA, mcqFixtureB] [("m1", "A")] 10 0).wrong = 2
    ∧ selectedAnswer [("m1", "A")] mcqFixtureB = ""
    ∧ isCorrect [("m1", "A")] mcqFixtureB = false := by
  have h := mcq_scoring_counts_unanswered_as_wrong [mcqFixtureA, mcqFixtureB]
    [("m1", "A")] 10 0
  have hB := h.2.2.2 mcqFixtureB (by decide) (by decide)
  exact ⟨h.1, hB.1, hB.2 (by decide)⟩

/-- C1: trace of an MCQ session through two integrity violations. The first
violation increments the live count to 1, shows the non-terminal warning,
attempts to re-acquire full-screen, and leaves the session running with nothing
persisted. The second violation (after the warning was shown and the effect
re-subscribed) calls the reject handler: the session becomes terminal with a
persisted rejection record — but the record carries violations = 1, the value
captured by the effect closure at the preceding render, although the live
violation count at that moment is 2. This exhibits the divergence from the
specified `violationCount = 2` in the persisted record. -/
theorem mcq_second_violation_rejects_but_persists_stale_count :
    (mcqViolationEvent startedMcqSession).violations = 1
    ∧ (mcqViolationEvent startedMcqSession).submitted = false
    ∧ (mcqViolationEvent startedMcqSession).warningGiven = true
    ∧ (mcqViolationEvent startedMcqSession).warningMsg = some mcqWarningText
    ∧ (mcqViolationEvent startedMcqSession).fullscreenRequests
        = startedMcqSession.fullscreenRequests + 1
    ∧ (mcqViolationEvent startedMcqSession).record = none
    ∧ (mcqViolationEvent (mcqViolationEvent startedMcqSession)).violations = 2
    ∧ (mcqViolationEvent (mcqViolationEvent startedMcqSession)).submitted = true
    ∧ (mcqViolationEvent (mcqViolationEvent startedMcqSession)).warningMsg
        = some mcqRejectText
    ∧ (mcqViolationEvent (mcqViolationEvent startedMcqSession)).record
        = some { round1Submitted := true, round1Rejected := true, violations := 1 } := by
  decide

/-- C8 counterexample: in a running MCQ session, two visibilitychange events
with the document hidden arriving 300 ms apart (within the supposed 500 ms
debounce window) each increment the violation count: the count reaches 2, not
1, so the session handlers do not debounce duplicate events. -/
theorem mcq_duplicate_visibility_events_double_count :
    ((1300 : Int) - 1000 < 500)
    ∧ (mcqVisibilityAt 1300 true (mcqVisibilityAt 1000 true startedMcqSession)).violations = 2
    ∧ ((mcqVisibilityAt 1300 true (mcqVisibilityAt 1000 true startedMcqSession)).violations == 1)
        = false := by
  refine ⟨by decide, by decide, by decide⟩

/-- C8 amended: only the layout-level proctoring monitor debounces the
visibility signal — an event within 500 ms of the previously accepted one is
dropped entirely, and an accepted hidden event increments its count by exactly
one — while the MCQ and coding-round session handlers have no debounce window
and increment the violation count on every hidden event regardless of the
event timestamp. -/
theorem debounce_only_in_layout_monitor (m : LayoutMonitor) (now t : Int)
    (hidden : Bool) (s : McqSession) (c : CodingSession) :
    (now - m.lastVisibilityChange < 500 → onVisibilityChange now hidden m = m)
    ∧ (500 ≤ now - m.lastVisibilityChange →
        (onVisibilityChange now true m).violationCount = m.violationCount + 1
        ∧ (onVisibilityChange now true m).lastVisibilityChange = now)
    ∧ (s.listenersActive = true → (mcqVisibilityAt t true s).violations = s.violations + 1)
    ∧ (c.started = true → (codingOnVisibility t true c).violations = c.violations + 1) := by
  refine ⟨fun h => ?_, fun h => ?_, fun h => ?_, fun h => ?_⟩
  · simp [onVisibilityChange, h]
  · have hnot : ¬ (now - m.lastVisibilityChange < 500) := by omega
    constructor
    · simp only [onVisibilityChange, hnot, if_false, if_true, layoutHandleViolation]
      split <;> rfl
    · simp only [onVisibilityChange, hnot, if_false, if_true, layoutHandleViolation]
      split <;> rfl
  · simp [mcqVisibilityAt, mcqViolationEvent, mcqHandleViolation, h, mcqRerender,
      mcqHandleReject]
    split <;> split <;> rfl
  · simp [codingOnVisibility, h, bumpViolation]

/-- Witness for C8 amended: a debounced duplicate at 1300 after an accepted
event, an accepted event at 1600, and undebounced session handlers. -/
theorem debounce_only_in_layout_monitor_witness :
    onVisibilityChange 1300 true layoutFixture = layoutFixture
    ∧ (onVisibilityChange 1600 true layoutFixture).violationCount
        = layoutFixture.violationCount + 1
    ∧ (mcqVisibilityAt 1300 true startedMcqSession).violations
        = startedMcqSession.violations + 1
    ∧ (codingOnVisibility 1300 true pendingSession).violations
        = pendingSession.violations + 1 := by
  have h1 := (debounce_only_in_layout_monitor layoutFixture 1300 1300 true
    startedMcqSession pendingSession).1 (by decide)
  have h2 := ((debounce_only_in_layout_monitor layoutFixture 1600 1300 true
    startedMcqSession pendingSession).2.1 (by decide)).1
  have h3 := (debounce_only_in_layout_monitor layoutFixture 1300 1300 true
    startedMcqSession pendingSession).2.2.1 (by decide)
  have h4 := (debounce_only_in_layout_monitor layoutFixture 1300 1300 true
    startedMcqSession pendingSession).2.2.2 (by decide)
  exact ⟨h1, h2, h3, h4⟩

/-! Helper lemmas about list membership through the Boolean `contains` used by
the `submittedQuestions` guard. -/

theorem contains_append_self (l : List String) (a : String) :
    (l ++ [a]).contains a = true := by
  simp

theorem contains_append_of_contains (l : List String) (a b : String)
    (h : l.contains b = true) : (l ++ [a]).contains b = true := by
  have hm : b ∈ l := by simpa using h
  simp [hm]

/-! Regime lemmas for one atomic step of the countdown callback. -/

/-- Step of the countdown strictly before expiry: the countdown decrements and
only the one-time warning flag may latch; nothing is submitted. -/
theorem tick_pre (run : Runner) (lang : String) (s : CodingSession) (r : Int)
    (hrc : s.roundCompleted = false) (hr : s.remainingSec = some r) (h2 : 2 ≤ r) :
    tick run lang s
      = { s with remainingSec := some (r - 1)
                 warnShown := (s.warnShown || (r - 1 == 60)) } := by
  have hle : ¬ (r - 1 ≤ 0) := by omega
  cases hws : s.warnShown with
  | true => simp [tick, hrc, hr, hle, hws]
  | false =>
      cases hw : ((r - 1 : Int) == 60) with
      | true => simp [tick, hrc, hr, hle, hws, hw]
      | false => simp [tick, hrc, hr, hle, hws, hw]

/-- Step of the countdown at expiry with the current question unsubmitted: the
countdown pins to 0 and the current question is force-submitted exactly here. -/
theorem tick_expires_submits_current (run : Runner) (lang : String)
    (s : CodingSession) (q : Question) (r : Int)
    (hrc : s.roundCompleted = false) (hr : s.remainingSec = some r) (hr1 : r ≤ 1)
    (hq : s.questions[s.idx]? = some q)
    (hns : s.submittedQuestions.contains q.id = false) :
    tick run lang s
      = { s with
          remainingSec := some 0
          submittedQuestions := s.submittedQuestions ++ [q.id]
          records := fun k =>
            if k = q.id
            then some (submitRecord run lang q (s.codeMap q.id) s.violations s.timerSec)
            else s.records k
          forcedSubmitCount := s.forcedSubmitCount + 1 } := by
  have hwarn : ((r - 1 : Int) == 60) = false := by
    rw [beq_eq_false_iff_ne]
    omega
  have hle : (r - 1 : Int) ≤ 0 := by omega
  have hmem : q.id ∉ s.submittedQuestions := by simpa using hns
  simp [tick, hrc, hr, hwarn, hle, submit, hq, hmem]

/-- Step of the countdown after expiry with the current question already
submitted: a no-op, the ticking has effectively stopped. -/
theorem tick_stopped (run : Runner) (lang : String) (s : CodingSession)
    (q : Question)
    (hrc : s.roundCompleted = false) (hr : s.remainingSec = some 0)
    (hq : s.questions[s.idx]? = some q)
    (hsub : s.submittedQuestions.contains q.id = true) :
    tick run lang s = s := by
  have hmem : q.id ∈ s.submittedQuestions := by simpa using hsub
  have h1 : tick run lang s = { s with remainingSec := some 0 } := by
    simp [tick, hrc, hr, hq, hmem]
  rw [h1, ← hr]

/-- C2 counterexample: at expiry while the currently displayed question `q1` is
already submitted and the other loaded question `q2` is not, the timer submits
nothing: `q2` stays unsubmitted with no persisted record, refuting that the
timer forces submit for every question not yet submitted. -/
theorem timer_expiry_spares_noncurrent_unsubmitted_question :
    (tick (constRunner "2") "python" twoQuestionSession).submittedQuestions = ["q1"]
    ∧ (tick (constRunner "2") "python" twoQuestionSession).records "q2" = none
    ∧ (tick (constRunner "2") "python" twoQuestionSession).remainingSec = some 0
    ∧ twoQuestionSession.questions.map Question.id = ["q1", "q2"]
    ∧ twoQuestionSession.submittedQuestions.contains "q2" = false := by
  refine ⟨by decide, by decide, by decide, by decide, by decide⟩

/-- C2 amended: when the countdown reaches zero while the session is running,
the timer forces `submit()` only for the currently displayed question when it
is not yet submitted, persisting that question with its current code buffer —
so when the current question is the only unsubmitted one, afterwards every
loaded question is submitted. Other unsubmitted questions are not
auto-submitted (see the counterexample). -/
theorem timer_expiry_submits_current_question (run : Runner) (lang : String)
    (s : CodingSession) (q : Question) (r : Int)
    (hrc : s.roundCompleted = false) (hr : s.remainingSec = some r) (hr1 : r ≤ 1)
    (hq : s.questions[s.idx]? = some q)
    (hns : s.submittedQuestions.contains q.id = false) :
    (tick run lang s).submittedQuestions = s.submittedQuestions ++ [q.id]
    ∧ (tick run lang s).records q.id
        = some (submitRecord run lang q (s.codeMap q.id) s.violations s.timerSec)
    ∧ (submitRecord run lang q (s.codeMap q.id) s.violations s.timerSec).code
        = s.codeMap q.id
    ∧ (tick run lang s).remainingSec = some 0
    ∧ ((∀ q2 ∈ s.questions,
          q2.id = q.id ∨ s.submittedQuestions.contains q2.id = true) →
        ∀ q2 ∈ s.questions,
          (tick run lang s).submittedQuestions.contains q2.id = true) := by
  have ht := tick_expires_submits_current run lang s q r hrc hr hr1 hq hns
  rw [ht]
  refine ⟨rfl, by simp, rfl, rfl, ?_⟩
  intro hall q2 hq2
  rcases hall q2 hq2 with h1 | h2
  · rw [h1]
    exact contains_append_self _ _
  · exact contains_append_of_contains _ _ _ h2

/-- Witness for C2 amended at a concrete single-question session one second
before expiry. -/
theorem timer_expiry_submits_current_question_witness :
    (tick (constRunner "2") "python"
        { pendingSession with remainingSec := some 1 }).submittedQuestions = ["q1"]
    ∧ (tick (constRunner "2") "python"
        { pendingSession with remainingSec := some 1 }).remainingSec = some 0 := by
  have h := timer_expiry_submits_current_question (constRunner "2") "python"
    { pendingSession with remainingSec := some 1 } questionA 1
    (by decide) rfl (by decide) (by decide) (by decide)
  exact ⟨by rw [h.1]; decide, h.2.2.2.1⟩

/-- Helper lemma: the natural division used by `submitPercentage` is exactly
rounding half-up of the rational percentage. -/
theorem submitPercentage_eq_round (p t : Nat) (ht : 0 < t) :
    (submitPercentage p t : ℤ) = round ((p : ℚ) / (t : ℚ) * 100) := by
  have htq : ((t : ℚ)) ≠ 0 := by
    exact_mod_cast Nat.pos_iff_ne_zero.mp ht
  have hx : (p : ℚ) / (t : ℚ) * 100 + 1 / 2
      = ((200 * p + t : ℕ) : ℚ) / ((2 * t : ℕ) : ℚ) := by
    push_cast
    field_simp
    ring
  rw [round_eq, hx]
  have hnn : (0 : ℚ) ≤ ((200 * p + t : ℕ) : ℚ) / ((2 * t : ℕ) : ℚ) := by positivity
  have hfl : ⌊((200 * p + t : ℕ) : ℚ) / ((2 * t : ℕ) : ℚ)⌋₊ = (200 * p + t) / (2 * t) :=
    Nat.floor_div_eq_div _ _
  have h0 : (0 : ℤ) ≤ ⌊((200 * p + t : ℕ) : ℚ) / ((2 * t : ℕ) : ℚ)⌋ :=
    Int.floor_nonneg.mpr hnn
  rw [submitPercentage, if_pos ht, ← hfl, ← Int.floor_toNat]
  exact Int.toNat_of_nonneg h0

/-- C3: every coding-question submission persists
`percentage = round(passed / total * 100)` (rational rounding half-up), with a
zero total giving percentage 0 and no division; Scenario A concretely: three
test cases with cases 1 and 3 passing and case 2 failing persist
`passed = 2, total = 3, percentage = 67, result = "Failed"`. -/
theorem submission_percentage_spec (run : Runner) (lang : String) (q : Question)
    (code : String) (v t : Nat) :
    (0 < q.testCases.length →
      ((submitRecord run lang q code v t).percentage : ℤ)
        = round (((submitRecord run lang q code v t).passed : ℚ)
            / ((submitRecord run lang q code v t).total : ℚ) * 100))
    ∧ (q.testCases.length = 0 → (submitRecord run lang q code v t).percentage = 0)
    ∧ (submitRecord scenarioRunner "python" scenarioQuestion "src" 0 0).passed = 2
    ∧ (submitRecord scenarioRunner "python" scenarioQuestion "src" 0 0).total = 3
    ∧ (submitRecord scenarioRunner "python" scenarioQuestion "src" 0 0).percentage = 67
    ∧ (submitRecord scenarioRunner "python" scenarioQuestion "src" 0 0).result
        = "Failed" := by
  refine ⟨fun h => ?_, fun h => ?_, by decide, by decide, by decide, by decide⟩
  · exact submitPercentage_eq_round _ _ h
  · simp [submitRecord, submitPercentage, h]

/-- Witness for C3 at Scenario A and at an empty test-case list. -/
theorem submission_percentage_spec_witness :
    ((submitRecord scenarioRunner "python" scenarioQuestion "src" 0 0).percentage : ℤ)
      = round (((submitRecord scenarioRunner "python" scenarioQuestion "src" 0 0).passed : ℚ)
          / ((submitRecord scenarioRunner "python" scenarioQuestion "src" 0 0).total : ℚ) * 100)
    ∧ (submitRecord scenarioRunner "python"
        { id := "empty", testCases := [], endAt := none } "src" 0 0).percentage = 0 :=
  ⟨(submission_percentage_spec scenarioRunner "python" scenarioQuestion "src" 0 0).1
      (by decide),
   (submission_percentage_spec scenarioRunner "python"
      { id := "empty", testCases := [], endAt := none } "src" 0 0).2.1 rfl⟩

/-! Helper lemmas: the left fold of `min` (the model of `Math.min(...ends)`)
yields a member of the list that bounds every member from below. -/

theorem foldl_min_mem (e : Int) (es : List Int) : es.foldl min e ∈ e :: es := by
  induction es generalizing e with
  | nil => simp
  | cons x xs ih =>
      have h := ih (min e x)
      simp only [List.foldl_cons]
      rcases List.mem_cons.mp h with h1 | h2
      · rcases min_choice e x with hc | hc
        · rw [h1, hc]
          exact List.mem_cons_self _ _
        · rw [h1, hc]
          exact List.mem_cons_of_mem _ (List.mem_cons_self _ _)
      · exact List.mem_cons_of_mem _ (List.mem_cons_of_mem _ h2)

theorem foldl_min_le (e : Int) (es : List Int) :
    ∀ x ∈ e :: es, es.foldl min e ≤ x := by
  induction es generalizing e with
  | nil => simp
  | cons y ys ih =>
      intro x hx
      simp only [List.foldl_cons]
      rcases List.mem_cons.mp hx with rfl | hx2
      · exact le_trans (ih (min x y) _ (List.mem_cons_self _ _)) (min_le_left _ _)
      · rcases List.mem_cons.mp hx2 with rfl | hx3
        · exact le_trans (ih (min e x) _ (List.mem_cons_self _ _)) (min_le_right _ _)
        · exact ih (min e y) x (List.mem_cons_of_mem _ hx3)

/-- Helper lemma: characterisation of the countdown initialisation — an active
countdown comes from an end time that is minimal among all loaded end times,
through the `max 0 (floor((end - now) / 1000))` formula, hence nonnegative; no
end times give an inactive countdown. -/
theorem initialRemaining_spec (qs : List Question) (now rinit : Int)
    (h : initialRemaining qs now = some rinit) :
    0 ≤ rinit
    ∧ ∃ e ∈ qs.filterMap Question.endAt,
        rinit = max 0 (Int.fdiv (e - now) 1000)
        ∧ ∀ x ∈ qs.filterMap Question.endAt, e ≤ x := by
  unfold initialRemaining at h
  cases hfm : qs.filterMap Question.endAt with
  | nil => rw [hfm] at h; exact absurd h (by simp)
  | cons e es =>
      rw [hfm] at h
      simp only [Option.some.injEq] at h
      refine ⟨by rw [← h]; exact le_max_left _ _, es.foldl min e, ?_, h.symm, ?_⟩
      · exact foldl_min_mem e es
      · exact foldl_min_le e es

/-- Helper lemma: full characterisation of the iterated countdown from a
running session whose current question is unsubmitted: the question list,
index and completion flag are stable, the countdown after k ticks is
`max (r - k) 0` (never negative), and the forced-submit counter increases by
exactly one, at the tick on which the countdown reaches zero, and never again. -/
theorem countdown_trace (run : Runner) (lang : String) (s : CodingSession)
    (q : Question) (r : Int)
    (hq : s.questions[s.idx]? = some q)
    (hns : s.submittedQuestions.contains q.id = false)
    (hr : s.remainingSec = some r) (h0 : 0 ≤ r) (hrc : s.roundCompleted = false) :
    ∀ k : Nat,
      ((tick run lang)^[k] s).questions = s.questions
      ∧ ((tick run lang)^[k] s).idx = s.idx
      ∧ ((tick run lang)^[k] s).roundCompleted = false
      ∧ ((tick run lang)^[k] s).remainingSec = some (max (r - k) 0)
      ∧ (if max r.toNat 1 ≤ k
         then ((tick run lang)^[k] s).submittedQuestions
                = s.submittedQuestions ++ [q.id]
              ∧ ((tick run lang)^[k] s).forcedSubmitCount = s.forcedSubmitCount + 1
         else ((tick run lang)^[k] s).submittedQuestions = s.submittedQuestions
              ∧ ((tick run lang)^[k] s).forcedSubmitCount = s.forcedSubmitCount) := by
  intro k
  induction k with
  | zero =>
      have hcond : ¬ (max r.toNat 1 ≤ 0) := by omega
      rw [if_neg hcond]
      refine ⟨rfl, rfl, hrc, ?_, rfl, rfl⟩
      show s.remainingSec = some (max (r - ((0 : Nat) : Int)) 0)
      rw [hr]
      congr 1
      omega
  | succ k ih =>
      obtain ⟨ihq, ihi, ihc, ihr, ihsf⟩ := ih
      rw [Function.iterate_succ_apply']
      set sk := (tick run lang)^[k] s with hsk
      have hqk : sk.questions[sk.idx]? = some q := by rw [ihq, ihi]; exact hq
      by_cases hk : max r.toNat 1 ≤ k
      · -- already expired at step k: the tick is a no-op
        rw [if_pos hk] at ihsf
        obtain ⟨ihs, ihf⟩ := ihsf
        have hz : max (r - (k : Int)) 0 = 0 := by omega
        have hsub : sk.submittedQuestions.contains q.id = true := by
          rw [ihs]; exact contains_append_self _ _
        have hstop := tick_stopped run lang sk q ihc (by rw [ihr, hz]) hqk hsub
        rw [hstop]
        have hz1 : max (r - (k + 1 : Nat)) 0 = 0 := by
          push_cast; omega
        have hcond : max r.toNat 1 ≤ k + 1 := by omega
        rw [hz1, if_pos hcond]
        exact ⟨ihq, ihi, ihc, by rw [ihr, hz], ihs, ihf⟩
      · rw [if_neg hk] at ihsf
        obtain ⟨ihs, ihf⟩ := ihsf
        by_cases hk1 : max r.toNat 1 ≤ k + 1
        · -- this is the expiry tick
          have hrk : max (r - (k : Int)) 0 ≤ 1 := by omega
          have hnsk : sk.submittedQuestions.contains q.id = false := by
            rw [ihs]; exact hns
          have hexp := tick_expires_submits_current run lang sk q
            (max (r - (k : Int)) 0) ihc (by rw [ihr]) hrk hqk hnsk
          rw [hexp]
          have hz1 : max (r - (k + 1 : Nat)) 0 = 0 := by push_cast; omega
          rw [hz1, if_pos hk1]
          exact ⟨ihq, ihi, ihc, rfl, by rw [ihs], by rw [ihf]⟩
        · -- still strictly before expiry
          have h2 : 2 ≤ max (r - (k : Int)) 0 := by omega
          have hpre := tick_pre run lang sk (max (r - (k : Int)) 0) ihc
            (by rw [ihr]) h2
          rw [hpre]
          have hmaxs : max (r - (k : Int)) 0 - 1 = max (r - (k + 1 : Nat)) 0 := by
            push_cast; omega
          rw [if_neg hk1]
          exact ⟨ihq, ihi, ihc, by rw [hmaxs], by rw [ihs], by rw [ihf]⟩

/-- C6: the countdown is initialised as `max 0 (floor((endTime - serverNow) /
1000))` from an earliest assignment end time (and is inactive when no end time
exists); from a running session it never goes negative under any number of
ticks; and the forced submission fires exactly once, at the tick on which the
countdown reaches zero, never before and never again afterwards. -/
theorem countdown_init_nonneg_and_single_forced_submit
    (run : Runner) (lang : String) (s : CodingSession) (q : Question) (r : Int)
    (hq : s.questions[s.idx]? = some q)
    (hns : s.submittedQuestions.contains q.id = false)
    (hr : s.remainingSec = some r) (h0 : 0 ≤ r)
    (hrc : s.roundCompleted = false) (hf : s.forcedSubmitCount = 0) :
    (∀ (qs : List Question) (now rinit : Int),
        initialRemaining qs now = some rinit →
        0 ≤ rinit
        ∧ ∃ e ∈ qs.filterMap Question.endAt,
            rinit = max 0 (Int.fdiv (e - now) 1000)
            ∧ ∀ x ∈ qs.filterMap Question.endAt, e ≤ x)
    ∧ (∀ (qs : List Question) (now : Int),
        qs.filterMap Question.endAt = [] → initialRemaining qs now = none)
    ∧ (∀ k : Nat, ∃ rk : Int,
        ((tick run lang)^[k] s).remainingSec = some rk ∧ 0 ≤ rk)
    ∧ (∀ k : Nat, ((tick run lang)^[k] s).forcedSubmitCount
        = if max r.toNat 1 ≤ k then 1 else 0) := by
  have htr := countdown_trace run lang s q r hq hns hr h0 hrc
  refine ⟨fun qs now rinit h => initialRemaining_spec qs now rinit h,
    fun qs now h => by simp [initialRemaining, h], fun k => ?_, fun k => ?_⟩
  · exact ⟨max (r - (k : Int)) 0, (htr k).2.2.2.1, le_max_right _ _⟩
  · have h5 := (htr k).2.2.2.2
    by_cases hk : max r.toNat 1 ≤ k
    · rw [if_pos hk] at h5 ⊢
      rw [h5.2, hf]
    · rw [if_neg hk] at h5 ⊢
      rw [h5.2, hf]

/-- Witness for C6 at a concrete session with three seconds remaining: after
five ticks the countdown sits at a nonnegative value and forced submission has
fired exactly once; after two ticks it has not fired yet. -/
theorem countdown_init_nonneg_and_single_forced_submit_witness :
    (∃ rk : Int,
        ((tick (constRunner "2") "python")^[5] pendingSession).remainingSec = some rk
        ∧ 0 ≤ rk)
    ∧ ((tick (constRunner "2") "python")^[5] pendingSession).forcedSubmitCount = 1
    ∧ ((tick (constRunner "2") "python")^[2] pendingSession).forcedSubmitCount = 0 := by
  have h := countdown_init_nonneg_and_single_forced_submit (constRunner "2") "python"
    pendingSession questionA 3 rfl (by decide) rfl (by decide) rfl rfl
  refine ⟨h.2.2.1 5, ?_, ?_⟩
  · rw [h.2.2.2 5]
    norm_num
  · rw [h.2.2.2 2]
    norm_num

end ExamPortal
